import Mathlib

/-!
Verification of the signaling-server core (src/signaling-core.ts) and its
rate limiter (src/rate-limiter.ts) against the natural-language specification.

The TypeScript classes are shallowly embedded as pure Lean functions over an
explicit state record.  JavaScript `Map`s become association lists with the
usual get/set/delete operations; WebSocket handles are opaque `Nat` tokens
compared only for equality; `Date.now()` becomes an explicit `now : Nat`
parameter; `setTimeout`/`clearTimeout` become an armed-timer set in the state
plus an explicit `fireTimeout` event for the timer callback body; the
side-effecting `send`/`close` callbacks become an emitted list of `Effect`s.

JavaScript `Map` values are object references: `handleServerRegister`'s
same-connection refresh mutates the stored registration object in place,
and the connect-request timeout closure captures that same object.  To model
this aliasing faithfully the registration objects live in an explicit heap
(`heap : List (Nat × ServerObj)`) addressed by allocation ids; the `servers`
map and the timeout closures store heap addresses, exactly as JS references do.
-/

namespace Signaling

/-- Association-list lookup, the embedding of JS `Map.get` (String keys). -/
def aget {β : Type} (k : String) : List (String × β) → Option β
  | [] => none
  | (k', v) :: t => if k' = k then some v else aget k t

/-- Association-list lookup for `Nat` keys (WebSocket handles, heap ids). -/
def nget {β : Type} (k : Nat) : List (Nat × β) → Option β
  | [] => none
  | (k', v) :: t => if k' = k then some v else nget k t

/-- Remove all bindings of a key, the embedding of JS `Map.delete`. -/
def adel {β : Type} (k : String) : List (String × β) → List (String × β)
  | [] => []
  | (k', v) :: t => if k' = k then adel k t else (k', v) :: adel k t

def ndel {β : Type} (k : Nat) : List (Nat × β) → List (Nat × β)
  | [] => []
  | (k', v) :: t => if k' = k then ndel k t else (k', v) :: ndel k t

/-- Bind a key, the embedding of JS `Map.set`. -/
def aset {β : Type} (k : String) (v : β) (l : List (String × β)) : List (String × β) :=
  (k, v) :: adel k l

def nset {β : Type} (k : Nat) (v : β) (l : List (Nat × β)) : List (Nat × β) :=
  (k, v) :: ndel k l

theorem aget_adel_self {β : Type} (k : String) (l : List (String × β)) :
    aget k (adel k l) = none := by
  induction l with
  | nil => rfl
  | cons p t ih =>
    obtain ⟨k', v⟩ := p
    by_cases h : k' = k
    · simpa [adel, h] using ih
    · simpa [adel, aget, h] using ih

theorem aget_adel_ne {β : Type} {k k' : String} {l : List (String × β)}
    (h : k' ≠ k) : aget k' (adel k l) = aget k' l := by
  induction l with
  | nil => rfl
  | cons p t ih =>
    obtain ⟨a, v⟩ := p
    simp only [adel, aget]
    by_cases ha : a = k
    · rw [if_pos ha, ih, if_neg (fun hc : a = k' => h (hc ▸ ha))]
    · rw [if_neg ha]
      by_cases hb : a = k'
      · simp [aget, hb]
      · simp [aget, hb, ih]

theorem aget_aset_self {β : Type} (k : String) (v : β) (l : List (String × β)) :
    aget k (aset k v l) = some v := by
  simp [aset, aget]

theorem aget_aset_ne {β : Type} {k k' : String} {v : β} {l : List (String × β)}
    (h : k' ≠ k) : aget k' (aset k v l) = aget k' l := by
  have hk : ¬ k = k' := fun hc => h hc.symm
  simp [aset, aget, hk, aget_adel_ne h]

theorem nget_ndel_self {β : Type} (k : Nat) (l : List (Nat × β)) :
    nget k (ndel k l) = none := by
  induction l with
  | nil => rfl
  | cons p t ih =>
    obtain ⟨k', v⟩ := p
    by_cases h : k' = k
    · simpa [ndel, h] using ih
    · simpa [ndel, nget, h] using ih

theorem nget_ndel_ne {β : Type} {k k' : Nat} {l : List (Nat × β)}
    (h : k' ≠ k) : nget k' (ndel k l) = nget k' l := by
  induction l with
  | nil => rfl
  | cons p t ih =>
    obtain ⟨a, v⟩ := p
    simp only [ndel, nget]
    by_cases ha : a = k
    · rw [if_pos ha, ih, if_neg (fun hc : a = k' => h (hc ▸ ha))]
    · rw [if_neg ha]
      by_cases hb : a = k'
      · simp [nget, hb]
      · simp [nget, hb, ih]

theorem nget_nset_self {β : Type} (k : Nat) (v : β) (l : List (Nat × β)) :
    nget k (nset k v l) = some v := by
  simp [nset, nget]

theorem nget_nset_ne {β : Type} {k k' : Nat} {v : β} {l : List (Nat × β)}
    (h : k' ≠ k) : nget k' (nset k v l) = nget k' l := by
  have hk : ¬ k = k' := fun hc => h hc.symm
  simp [nset, nget, hk, nget_ndel_ne h]

/-- Membership in a deleted map implies membership in the original, at a
different key. -/
theorem mem_adel {β : Type} {k : String} {p : String × β} {l : List (String × β)}
    (h : p ∈ adel k l) : p ∈ l ∧ p.1 ≠ k := by
  induction l with
  | nil => cases h
  | cons q t ih =>
    obtain ⟨a, v⟩ := q
    by_cases ha : a = k
    · simp only [adel, if_pos ha] at h
      exact ⟨List.mem_cons_of_mem _ (ih h).1, (ih h).2⟩
    · simp only [adel, if_neg ha] at h
      rcases List.mem_cons.mp h with h1 | h1
      · subst h1; exact ⟨List.mem_cons_self _ _, ha⟩
      · exact ⟨List.mem_cons_of_mem _ (ih h1).1, (ih h1).2⟩

theorem mem_aset {β : Type} {k : String} {v : β} {p : String × β}
    {l : List (String × β)} (h : p ∈ aset k v l) :
    p = (k, v) ∨ (p ∈ l ∧ p.1 ≠ k) := by
  rcases List.mem_cons.mp h with h1 | h1
  · exact Or.inl h1
  · exact Or.inr (mem_adel h1)

/-- A key absent from a map is still absent after any deletion. -/
theorem aget_adel_none {β : Type} {k : String} (k' : String) {l : List (String × β)}
    (h : aget k l = none) : aget k (adel k' l) = none := by
  by_cases hk : k = k'
  · subst hk; exact aget_adel_self k l
  · rw [aget_adel_ne hk]; exact h

/-- A key absent from a map is still absent after any filtering. -/
theorem aget_filter_none {β : Type} {k : String} (f : String × β → Bool)
    {l : List (String × β)} (h : aget k l = none) : aget k (l.filter f) = none := by
  induction l with
  | nil => rfl
  | cons p t ih =>
    obtain ⟨a, v⟩ := p
    by_cases ha : a = k
    · simp [aget, ha] at h
    · simp only [aget, if_neg ha] at h
      by_cases hf : f (a, v)
      · simp [List.filter, hf, aget, ha, ih h]
      · simp only [List.filter, hf]
        exact ih h

/-- Cancel an armed one-shot timer (`clearTimeout`): the timer id is removed
from the armed set. -/
def cancelTimer (t : Nat) (l : List Nat) : List Nat :=
  l.filter (fun x => x ≠ t)

theorem not_mem_cancelTimer (t : Nat) (l : List Nat) : t ∉ cancelTimer t l := by
  intro h
  have := List.of_mem_filter h
  simp at this

theorem cancelTimer_of_not_mem {t : Nat} {l : List Nat} (h : t ∉ l) :
    cancelTimer t l = l := by
  apply List.filter_eq_self.mpr
  intro x hx
  simp only [ne_eq, decide_not, Bool.not_eq_false']
  by_cases hxt : x = t
  · exact absurd (hxt ▸ hx) h
  · simp [hxt]

theorem cancelTimer_idem (t : Nat) (l : List Nat) :
    cancelTimer t (cancelTimer t l) = cancelTimer t l :=
  cancelTimer_of_not_mem (not_mem_cancelTimer t l)

/-! ## RateLimiter (src/rate-limiter.ts)

`Date.now()` milliseconds become a `now : Nat` parameter.  JS numbers are
embedded as `Nat`: every quantity involved (counts, millisecond timestamps,
window lengths, `min (base * 2 ^ v) 3600000`) is a non-negative integer and
stays far below 2^53 in every reachable configuration, so exact `Nat`
arithmetic coincides with JS number arithmetic here.  The two JS
`now - windowStart > windowMs` comparisons are faithful under truncated `Nat`
subtraction: when `now < windowStart` both the JS negative value and the
truncated `0` fail the `> windowMs` test. -/

/-- One entry of `RateLimiter.requests`:
`{ count, windowStart, blocked, blockExpires, violations }`. -/
structure RLRecord where
  count : Nat
  windowStart : Nat
  blocked : Bool
  blockExpires : Nat
  violations : Nat
deriving Repr, DecidableEq

/-- One entry of `RateLimiter.failedLookups`: `{ count, windowStart }`. -/
structure FLRecord where
  count : Nat
  windowStart : Nat
deriving Repr, DecidableEq

/-- The `RateLimiter` class: configuration plus its two maps. -/
structure RateLimiter where
  windowMs : Nat := 60000
  maxRequests : Nat := 100
  maxFailedLookups : Nat := 10
  failedLookupWindowMs : Nat := 60000
  baseBlockDurationMs : Nat := 60000
  requests : List (String × RLRecord) := []
  failedLookups : List (String × FLRecord) := []
deriving Repr, DecidableEq

/-- Result of `checkRequest`: `{ allowed: boolean, retryAfter?: number }`. -/
structure CheckResult where
  allowed : Bool
  retryAfter : Option Nat := none
deriving Repr, DecidableEq

/-- The JS `Math.ceil(ms / 1000)` for a non-negative integer number of milliseconds. -/
def ceilSeconds (ms : Nat) : Nat := (ms + 999) / 1000

/-- The body of `checkRequest` after the blocked-check: window reset with
violation decay, count increment, threshold test with exponential backoff. -/
def checkBody (rl : RateLimiter) (ip : String) (now : Nat) (r : RLRecord) :
    RateLimiter × CheckResult :=
  let r1 := if now - r.windowStart > rl.windowMs
            then { r with count := 0, windowStart := now,
                          violations := r.violations - 1 }
            else r
  let r2 := { r1 with count := r1.count + 1 }
  if r2.count > rl.maxRequests then
    let v := r2.violations + 1
    let dur := min (rl.baseBlockDurationMs * 2 ^ (v - 1)) 3600000
    let r3 := { r2 with violations := v, blocked := true, blockExpires := now + dur }
    ({ rl with requests := aset ip r3 rl.requests },
     { allowed := false, retryAfter := some (ceilSeconds dur) })
  else
    ({ rl with requests := aset ip r2 rl.requests }, { allowed := true })

/-- Embedding of `RateLimiter.checkRequest(ip)`.  The JS method mutates the record held by
the map in place; functionally, the final record is written back with `aset`,
and the early-return branch (still blocked) leaves the map untouched. -/
def checkRequest (rl : RateLimiter) (ip : String) (now : Nat) :
    RateLimiter × CheckResult :=
  match aget ip rl.requests with
  | some r =>
    if r.blocked then
      if now < r.blockExpires then
        (rl, { allowed := false,
               retryAfter := some (ceilSeconds (r.blockExpires - now)) })
      else
        checkBody rl ip now { r with blocked := false, count := 0, windowStart := now }
    else checkBody rl ip now r
  | none =>
    checkBody rl ip now
      { count := 0, windowStart := now, blocked := false, blockExpires := 0, violations := 0 }

/-- Embedding of `RateLimiter.recordFailedLookup(ip)`: sliding-window failed-lookup counter;
on reaching the threshold, block the request-rate record with
`violations += 2` and duration `min(base * 2^violations, 3600000)` (note the
exponent in the source is `requestRecord.violations`, the post-increment
value, with no `- 1`), then reset the failed-lookup counter. -/
def recordFailedLookup (rl : RateLimiter) (ip : String) (now : Nat) :
    RateLimiter × Bool :=
  let rec0 := match aget ip rl.failedLookups with
              | some r => r
              | none => { count := 0, windowStart := now }
  let r1 := if now - rec0.windowStart > rl.failedLookupWindowMs
            then { count := 0, windowStart := now }
            else rec0
  let r2 : FLRecord := { r1 with count := r1.count + 1 }
  if r2.count ≥ rl.maxFailedLookups then
    let q0 := match aget ip rl.requests with
              | some q => q
              | none => { count := 0, windowStart := now, blocked := false,
                          blockExpires := 0, violations := 0 }
    let v := q0.violations + 2
    let dur := min (rl.baseBlockDurationMs * 2 ^ v) 3600000
    let q1 := { q0 with violations := v, blocked := true, blockExpires := now + dur }
    let flReset : FLRecord := { count := 0, windowStart := now }
    ({ rl with requests := aset ip q1 rl.requests,
               failedLookups := aset ip flReset rl.failedLookups },
     true)
  else
    ({ rl with failedLookups := aset ip r2 rl.failedLookups }, false)

/-! ## SignalingCore (src/signaling-core.ts)

WebSocket handles are opaque `Nat` tokens.  The ICE-server payload is opaque
to the core (forwarded verbatim), so an `IceServerConfig[]` is embedded as an
opaque `List Nat` of configuration tokens. -/

/-- JS `remoteId.toUpperCase()` for the ASCII identifier space, written via
`List.map` so that it reduces in the kernel. -/
def upper (s : String) : String := String.mk (s.data.map Char.toUpper)

/-- The `ConnectionMetadata.type` tag: `'server' | 'client'`. -/
inductive Role where
  | server
  | client
deriving Repr, DecidableEq

/-- The `ConnectionMetadata` record `{ type, id }` (id is a remoteId for servers, a
sessionId for clients). -/
structure ConnMeta where
  type : Role
  id : String
deriving Repr, DecidableEq

/-- The `ServerData` record `{ ws, iceServers }`.  These are the heap objects JS `Map`
references point at; the same-connection refresh mutates them in place. -/
structure ServerObj where
  ws : Nat
  iceServers : Option (List Nat)
deriving Repr, DecidableEq

/-- The `ClientData` record `{ ws, remoteId }`. -/
structure ClientData where
  ws : Nat
  remoteId : String
deriving Repr, DecidableEq

/-- The `PendingClient` record `{ ws, remoteId, timeout }`, together with `obj`, the
heap address of the `serverData` object captured by the `setTimeout` closure
created in `handleConnectRequest` (in JS this capture lives in the closure;
it is keyed per session here). -/
structure PendingClient where
  ws : Nat
  remoteId : String
  timer : Nat
  obj : Nat
deriving Repr, DecidableEq

/-- A message in the signaling envelope (`SignalingMessage`); absent optional
fields are `none`.  The `data` payload is opaque. -/
structure SigMsg where
  type : String
  remoteId : Option String := none
  sessionId : Option String := none
  data : Option Nat := none
  error : Option String := none
  iceServers : Option (List Nat) := none
deriving Repr, DecidableEq

/-- An invocation of the adapter callbacks `send`/`close`, in order. -/
inductive Effect where
  | send (ws : Nat) (msg : SigMsg)
  | close (ws : Nat) (code : Nat) (reason : String)
deriving Repr, DecidableEq

/-- Embedding of `sendError(ws, e)`. -/
def sendErr (ws : Nat) (e : String) : Effect :=
  Effect.send ws { type := "error", error := some e }

/-- The mutable fields of `SignalingCore`, plus the registration-object heap
(`heap`/`nextObj`, modelling JS references), the armed-timer set
(`timers`/`nextTimer`, modelling live `setTimeout` handles) and the shared
`RateLimiter` instance. -/
structure CoreState where
  heap : List (Nat × ServerObj) := []
  nextObj : Nat := 0
  servers : List (String × Nat) := []
  clients : List (String × ClientData) := []
  pendingClients : List (String × PendingClient) := []
  wsMetadata : List (Nat × ConnMeta) := []
  wsClientIp : List (Nat × String) := []
  timers : List Nat := []
  nextTimer : Nat := 0
  rl : RateLimiter := {}
deriving Repr, DecidableEq

/-- The state of a freshly constructed `SignalingCore` with the default
`RateLimiter` configuration. -/
def CoreState.empty : CoreState := {}

/-- Dereference a registration: `servers.get(remoteId)` resolved through the
object heap. -/
def lookupServer (st : CoreState) (remoteId : String) : Option ServerObj :=
  (aget remoteId st.servers).bind (fun objId => nget objId st.heap)

/-- The eviction step of `handleServerRegister`: if the remote ID is held by a
different WebSocket, delete its registration and identity and close it. -/
def registerEvict (st : CoreState) (ws : Nat) (remoteId : String) :
    CoreState × List Effect :=
  match aget remoteId st.servers with
  | some objId =>
    match nget objId st.heap with
    | some o =>
      if o.ws ≠ ws then
        ({ st with servers := adel remoteId st.servers,
                   wsMetadata := ndel o.ws st.wsMetadata },
         [Effect.close o.ws 4000 "Replaced by new connection"])
      else (st, [])
    | none => (st, [])
  | none => (st, [])

/-- The install step of `handleServerRegister`: evict any holder on a
different connection, then allocate the new registration object, bind the
identifier and identity to it and reply `registered`. -/
def registerInstall (st0 : CoreState) (ws : Nat) (remoteId : String)
    (ice : Option (List Nat)) : CoreState × List Effect :=
  let ev := registerEvict st0 ws remoteId
  let st := ev.1
  let objId := st.nextObj
  ({ st with heap := nset objId { ws := ws, iceServers := ice } st.heap,
             nextObj := st.nextObj + 1,
             servers := aset remoteId objId st.servers,
             wsMetadata := nset ws { type := Role.server, id := remoteId } st.wsMetadata },
   ev.2 ++ [Effect.send ws { type := "registered", remoteId := some remoteId }])

/-- Embedding of `handleServerRegister(ws, message)`.  The `!remoteId` JS falsiness test
rejects both an absent and an empty identifier (after uppercasing).  A
connection already holding this exact registration gets an idempotent refresh
that overwrites the registration object's `iceServers` in place when the
message carries some. -/
def handleServerRegister (st : CoreState) (ws : Nat) (msg : SigMsg) :
    CoreState × List Effect :=
  match msg.remoteId with
  | none => (st, [sendErr ws "Remote ID required"])
  | some rid0 =>
    let remoteId := upper rid0
    if remoteId = "" then (st, [sendErr ws "Remote ID required"])
    else
      match nget ws st.wsMetadata with
      | some m =>
        if m.type = Role.server ∧ m.id = remoteId then
          let st' := match aget remoteId st.servers, msg.iceServers with
                     | some objId, some ice =>
                       match nget objId st.heap with
                       | some o =>
                         { st with heap := nset objId { o with iceServers := some ice } st.heap }
                       | none => st
                     | _, _ => st
          (st', [Effect.send ws { type := "registered", remoteId := some remoteId }])
        else registerInstall st ws remoteId msg.iceServers
      | none => registerInstall st ws remoteId msg.iceServers

/-- The server-not-found branch of `handleConnectRequest`: feed the failed
lookup into the rate limiter (when an address is known) and either close for
brute force or report the lookup failure. -/
def connectServerNotFound (st : CoreState) (ws : Nat) (now : Nat) :
    CoreState × List Effect :=
  match nget ws st.wsClientIp with
  | some ip =>
    let res := recordFailedLookup st.rl ip now
    let st' := { st with rl := res.1 }
    if res.2 then
      (st', [sendErr ws "Too many failed attempts. You have been temporarily blocked.",
             Effect.close ws 4008 "Blocked for brute force"])
    else
      (st', [sendErr ws "Server not found. Make sure your Music Assistant server is running and has Remote Access enabled."])
  | none =>
    (st, [sendErr ws "Server not found. Make sure your Music Assistant server is running and has Remote Access enabled."])

/-- Embedding of `handleConnectRequest(ws, message)`.  Here `freshId` is the value returned by
`generateSessionId()` (16 random alphanumeric characters, drawn with no
uniqueness check against existing sessions); the armed timer id is
`st.nextTimer` and its closure captures the session id, the remote ID and the
`serverData` heap address. -/
def handleConnectRequest (st : CoreState) (ws : Nat) (msg : SigMsg)
    (now : Nat) (freshId : String) : CoreState × List Effect :=
  match msg.remoteId with
  | none => (st, [sendErr ws "Remote ID required"])
  | some rid0 =>
    let remoteId := upper rid0
    if remoteId = "" then (st, [sendErr ws "Remote ID required"])
    else
      match aget remoteId st.servers with
      | none => connectServerNotFound st ws now
      | some objId =>
        match nget objId st.heap with
        | none => connectServerNotFound st ws now
        | some o =>
          let t := st.nextTimer
          let pc : PendingClient := { ws := ws, remoteId := remoteId, timer := t, obj := objId }
          ({ st with pendingClients := aset freshId pc st.pendingClients,
                     timers := t :: st.timers,
                     nextTimer := st.nextTimer + 1,
                     wsMetadata := nset ws { type := Role.client, id := freshId } st.wsMetadata },
           [Effect.send o.ws { type := "client-connected", sessionId := some freshId }])

/-- The body of the `setTimeout` callback armed by `handleConnectRequest`,
fired with the closure's captures (`sessionId`, `remoteId`, the `serverData`
heap address) when the 10-second fallback deadline elapses for timer `t`:
if the session is still pending, promote it to an active client and send
`connected` with the iceServers read from the captured registration object. -/
def fireTimeout (st : CoreState) (sessionId remoteId : String) (objId t : Nat) :
    CoreState × List Effect :=
  let st0 := { st with timers := cancelTimer t st.timers }
  match aget sessionId st0.pendingClients with
  | none => (st0, [])
  | some pending =>
    ({ st0 with pendingClients := adel sessionId st0.pendingClients,
                clients := aset sessionId { ws := pending.ws, remoteId := remoteId } st0.clients },
     [Effect.send pending.ws
        { type := "connected", remoteId := some remoteId, sessionId := some sessionId,
          iceServers := (nget objId st0.heap).bind ServerObj.iceServers }])

/-- Embedding of `handleSessionReady(ws, message)`: the pending-session existence check
comes first; only then is the caller's identity required to be a registered
server, whose own id (not the pending record's, and not anything from the
message) becomes the promoted session's `remoteId`. -/
def handleSessionReady (st : CoreState) (ws : Nat) (msg : SigMsg) :
    CoreState × List Effect :=
  match msg.sessionId with
  | none => (st, [sendErr ws "Session ID required"])
  | some sid =>
    if sid = "" then (st, [sendErr ws "Session ID required"])
    else
      match aget sid st.pendingClients with
      | none => (st, [])
      | some pending =>
        match nget ws st.wsMetadata with
        | some m =>
          if m.type = Role.server then
            let remoteId := m.id
            ({ st with timers := cancelTimer pending.timer st.timers,
                       pendingClients := adel sid st.pendingClients,
                       clients := aset sid { ws := pending.ws, remoteId := remoteId } st.clients },
             [Effect.send pending.ws
                { type := "connected", remoteId := some remoteId, sessionId := some sid,
                  iceServers := msg.iceServers }])
          else (st, [sendErr ws "Not a registered server"])
        | none => (st, [sendErr ws "Not a registered server"])

/-- Embedding of `forwardSignalingMessage(ws, message)` for `offer`/`answer`/`ice-candidate`:
a client-origin message is routed by the client's own identity (its session id
is stamped over whatever the message claimed); a server-origin message must
carry an explicit session id. -/
def forwardSignalingMessage (st : CoreState) (ws : Nat) (msg : SigMsg) :
    CoreState × List Effect :=
  match nget ws st.wsMetadata with
  | none => (st, [sendErr ws "Not registered"])
  | some m =>
    match m.type with
    | Role.client =>
      let sessionId := m.id
      match aget sessionId st.clients with
      | none => (st, [sendErr ws "Session not found"])
      | some clientData =>
        match lookupServer st clientData.remoteId with
        | none => (st, [sendErr ws "Server disconnected"])
        | some o => (st, [Effect.send o.ws { msg with sessionId := some sessionId }])
    | Role.server =>
      match msg.sessionId with
      | none => (st, [sendErr ws "Session ID required"])
      | some sid =>
        if sid = "" then (st, [sendErr ws "Session ID required"])
        else
          match aget sid st.clients with
          | none => (st, [sendErr ws "Client not found"])
          | some clientData => (st, [Effect.send clientData.ws msg])

/-- Embedding of `handleDisconnect(ws)`: the cascading cleanup keyed by the disconnecting
connection's identity.  With a server identity, the cascade over sessions runs
only if the registration still belongs to this WebSocket. -/
def handleDisconnect (st : CoreState) (ws : Nat) : CoreState × List Effect :=
  match nget ws st.wsMetadata with
  | none => (st, [])
  | some m =>
    match m.type with
    | Role.server =>
      let remoteId := m.id
      let stillOwner := match lookupServer st remoteId with
                        | some o => o.ws == ws
                        | none => false
      if stillOwner then
        let affectedClients := st.clients.filter (fun p => p.2.remoteId == remoteId)
        let affectedPendings := st.pendingClients.filter (fun p => p.2.remoteId == remoteId)
        ({ st with servers := adel remoteId st.servers,
                   wsMetadata := ndel ws st.wsMetadata,
                   clients := st.clients.filter (fun p => p.2.remoteId != remoteId),
                   pendingClients := st.pendingClients.filter (fun p => p.2.remoteId != remoteId),
                   timers := affectedPendings.foldr (fun p acc => cancelTimer p.2.timer acc) st.timers,
                   wsClientIp := ndel ws st.wsClientIp },
         (affectedClients.map (fun p => Effect.send p.2.ws { type := "peer-disconnected" }))
           ++ (affectedPendings.map (fun p => sendErr p.2.ws "Server disconnected")))
      else
        ({ st with wsMetadata := ndel ws st.wsMetadata,
                   wsClientIp := ndel ws st.wsClientIp }, [])
    | Role.client =>
      let sid := m.id
      let stPend := match aget sid st.pendingClients with
                    | some p =>
                      { st with timers := cancelTimer p.timer st.timers,
                                pendingClients := adel sid st.pendingClients }
                    | none => st
      let res : CoreState × List Effect :=
        match aget sid stPend.clients with
        | some cd =>
          ({ stPend with clients := adel sid stPend.clients },
           match lookupServer stPend cd.remoteId with
           | some o => [Effect.send o.ws { type := "client-disconnected", sessionId := some sid }]
           | none => [])
        | none => (stPend, [])
      ({ res.1 with wsMetadata := ndel ws res.1.wsMetadata,
                    wsClientIp := ndel ws res.1.wsClientIp }, res.2)

/-- The alphabet of `generateSessionId()`. -/
def sessionIdChars : List Char :=
  "ABCDEFGHIJKLMNOPQRSTUVWXYZabcdefghijklmnopqrstuvwxyz0123456789".toList

/-- The range of `generateSessionId()`: 16 characters drawn from the 62-letter
alphanumeric alphabet.  The generator draws each character independently at
random and performs no uniqueness check against existing session ids. -/
def validSessionId (s : String) : Prop :=
  s.length = 16 ∧ ∀ c ∈ s.data, c ∈ sessionIdChars

instance (s : String) : Decidable (validSessionId s) := by
  unfold validSessionId
  exact instDecidableAnd

/-! ## Concrete scenarios

Small reachable states, built from the empty core by the handlers themselves,
used as witnesses and counterexamples below. -/

/-- A `register-server` message. -/
def regMsg (r : String) (ice : Option (List Nat)) : SigMsg :=
  { type := "register-server", remoteId := some r, iceServers := ice }

/-- A `connect-request` message. -/
def conMsg (r : String) : SigMsg :=
  { type := "connect-request", remoteId := some r }

/-- A `session-ready` message. -/
def readyMsg (sid : String) (ice : Option (List Nat)) : SigMsg :=
  { type := "session-ready", sessionId := some sid, iceServers := ice }

/-- A session id in the range of `generateSessionId`. -/
def sidA : String := "SAAAAAAAAAAAAAAA"

/-- Server `A` registered on ws 1 with two cached ICE servers. -/
def stA1 : CoreState := (handleServerRegister CoreState.empty 1 (regMsg "A" (some [1, 2]))).1

/-- Additionally server `B` registered on ws 3. -/
def stA2 : CoreState := (handleServerRegister stA1 3 (regMsg "B" none)).1

/-- Additionally ws 2 has a connect-request pending toward `A` under `sidA`. -/
def stA3 : CoreState := (handleConnectRequest stA2 2 (conMsg "A") 0 sidA).1

/-! ## C1 -/

/-- C1 (amended): a successful `handleSessionReady` promotes the pending
session using the *calling connection's* registered server id (its identity
metadata), not the pending record's stored `remoteId` and not a value taken
from the message. -/
theorem sessionready_promotes_with_caller_id
    (st : CoreState) (ws : Nat) (msg : SigMsg) (sid : String)
    (p : PendingClient) (m : ConnMeta)
    (hsid : msg.sessionId = some sid) (hne : sid ≠ "")
    (hp : aget sid st.pendingClients = some p)
    (hm : nget ws st.wsMetadata = some m) (hs : m.type = Role.server) :
    aget sid ((handleSessionReady st ws msg).1).clients
      = some { ws := p.ws, remoteId := m.id }
    ∧ (handleSessionReady st ws msg).2 =
        [Effect.send p.ws { type := "connected", remoteId := some m.id,
                            sessionId := some sid, iceServers := msg.iceServers }] := by
  simp [handleSessionReady, hsid, hne, hp, hm, hs, aget_aset_self]

/-- C1 witness: the amended theorem applied to the concrete pending session
`sidA` of `stA3`, completed by the server registered as `B` on ws 3. -/
theorem sessionready_promotes_with_caller_id_witness :
    aget sidA ((handleSessionReady stA3 3 (readyMsg sidA none)).1).clients
      = some { ws := 2, remoteId := "B" } :=
  (sessionready_promotes_with_caller_id stA3 3 (readyMsg sidA none) sidA
      { ws := 2, remoteId := "A", timer := 0, obj := 0 }
      { type := Role.server, id := "B" }
      rfl (by decide) (by decide) (by decide) rfl).1

/-- C1 counterexample: in `stA3` the pending record for `sidA` stores
`remoteId = "A"`, yet the `session-ready` sent by the *other* registered
server (ws 3, registered as `"B"`) succeeds and promotes the session with
`remoteId = "B"` — the active session's `remoteId` differs from the one
stored in the pending record, so a registered server can capture a session
pending toward a different remoteId. -/
theorem sessionready_hijack_cx :
    (aget sidA stA3.pendingClients).map PendingClient.remoteId = some "A"
    ∧ aget sidA ((handleSessionReady stA3 3 (readyMsg sidA none)).1).clients
        = some { ws := 2, remoteId := "B" }
    ∧ ("B" : String) ≠ "A" := by decide

/-! ## C5 -/

/-- C5: for a pending session, exactly one of a successful `session-ready` and
the fallback deadline performs the promotion, with "pending session exists" as
the sole guard.  (i) After a successful `session-ready` the session id is no
longer pending, the pending record's timer is cancelled in the same step, and
a later firing of that timer is a complete no-op (no state change, no
effects), whatever values its closure captured.  (ii) After the deadline
promotion the session id is no longer pending and a later `session-ready` for
it is a complete no-op. -/
theorem pending_promotion_exactly_once
    (st : CoreState) (ws : Nat) (msg : SigMsg) (sid : String) (p : PendingClient)
    (r r2 : String) (obj obj2 t : Nat)
    (hsid : msg.sessionId = some sid) (hne : sid ≠ "")
    (hp : aget sid st.pendingClients = some p) :
    (∀ m, nget ws st.wsMetadata = some m → m.type = Role.server →
        aget sid ((handleSessionReady st ws msg).1).pendingClients = none
        ∧ p.timer ∉ ((handleSessionReady st ws msg).1).timers
        ∧ fireTimeout (handleSessionReady st ws msg).1 sid r2 obj2 p.timer
            = ((handleSessionReady st ws msg).1, []))
    ∧ (aget sid ((fireTimeout st sid r obj t).1).pendingClients = none
       ∧ handleSessionReady (fireTimeout st sid r obj t).1 ws msg
           = ((fireTimeout st sid r obj t).1, [])) := by
  constructor
  · intro m hm hs
    refine ⟨?_, ?_, ?_⟩ <;>
      simp [handleSessionReady, fireTimeout, hsid, hne, hp, hm, hs,
            aget_adel_self, not_mem_cancelTimer, cancelTimer_idem]
  · constructor <;>
      simp [handleSessionReady, fireTimeout, hsid, hne, hp,
            aget_adel_self, cancelTimer_idem]

/-- C5 witness: in `stA3`, a successful `session-ready` empties the pending
entry for `sidA`; in the other order, a deadline promotion makes the
subsequent `session-ready` a silent no-op. -/
theorem pending_promotion_exactly_once_witness :
    aget sidA ((handleSessionReady stA3 3 (readyMsg sidA none)).1).pendingClients = none
    ∧ handleSessionReady (fireTimeout stA3 sidA "A" 0 0).1 3 (readyMsg sidA none)
        = ((fireTimeout stA3 sidA "A" 0 0).1, []) := by
  have h := pending_promotion_exactly_once stA3 3 (readyMsg sidA none) sidA
    { ws := 2, remoteId := "A", timer := 0, obj := 0 } "A" "A" 0 0 0
    rfl (by decide) (by decide)
  exact ⟨(h.1 { type := Role.server, id := "B" } (by decide) rfl).1, h.2.2⟩

/-! ## C6 -/

/-- C6 (amended): `handleSessionReady` checks pendingness first: a
`session-ready` whose session id is not currently pending returns silently
(no error, no state change) *regardless of the caller's identity*; the
`NotAServer` error is raised only when the session id is pending and the
caller is not a registered server, again with no state change. -/
theorem sessionready_guard_order
    (st : CoreState) (ws : Nat) (msg : SigMsg) (sid : String)
    (hsid : msg.sessionId = some sid) (hne : sid ≠ "") :
    (aget sid st.pendingClients = none → handleSessionReady st ws msg = (st, []))
    ∧ (∀ p, aget sid st.pendingClients = some p →
        (∀ m, nget ws st.wsMetadata = some m → m.type ≠ Role.server) →
        handleSessionReady st ws msg = (st, [sendErr ws "Not a registered server"])) := by
  constructor
  · intro h
    simp [handleSessionReady, hsid, hne, h]
  · intro p hp hm
    cases hmeta : nget ws st.wsMetadata with
    | none => simp [handleSessionReady, hsid, hne, hp, hmeta]
    | some m =>
      have hns := hm m hmeta
      simp [handleSessionReady, hsid, hne, hp, hmeta, hns]

/-- Client ws 2 pending toward `A` under `sidA` (only server `A` registered). -/
def stD1 : CoreState := (handleConnectRequest stA1 2 (conMsg "A") 0 sidA).1

/-- The 10-second fallback deadline has fired: ws 2 is an active client with
identity `sidA`; nothing is pending any more. -/
def stD2 : CoreState := (fireTimeout stD1 sidA "A" 0 0).1

/-- Another plausible session id, unknown to the core. -/
def sidQ : String := "QQQQQQQQQQQQQQQQ"

/-- C6 witness: the pending session of `stA3` completed by the *client*
connection ws 2 draws the `NotAServer` error; a `session-ready` for the
unknown-but-plausible `sidQ` is silently ignored. -/
theorem sessionready_guard_order_witness :
    handleSessionReady stA3 2 (readyMsg sidA none)
      = (stA3, [sendErr 2 "Not a registered server"])
    ∧ handleSessionReady stD2 3 (readyMsg sidQ none) = (stD2, []) := by
  have h1 := sessionready_guard_order stA3 2 (readyMsg sidA none) sidA rfl (by decide)
  have h2 := sessionready_guard_order stD2 3 (readyMsg sidQ none) sidQ rfl (by decide)
  refine ⟨h1.2 { ws := 2, remoteId := "A", timer := 0, obj := 0 } (by decide) ?_,
          h2.1 (by decide)⟩
  intro m hm
  have h0 : nget 2 stA3.wsMetadata = some { type := Role.client, id := sidA } := by decide
  rw [h0] at hm
  cases Option.some.inj hm
  decide

/-- C6 counterexample: in `stD2` the connection ws 2 has a *client* identity
(not `server`), yet its `session-ready` for the not-pending `sidQ` is silently
ignored — no `NotAServer` error is sent, contradicting the claim that every
`session-ready` from a non-server identity fails with `NotAServer`. -/
theorem sessionready_notaserver_cx :
    (nget 2 stD2.wsMetadata).map ConnMeta.type = some Role.client
    ∧ handleSessionReady stD2 2 (readyMsg sidQ none) = (stD2, []) := by decide

/-! ## Shared facts about `handleServerRegister` -/

/-- When the remote ID is held on a different connection, `registerInstall`
evicts it and installs the fresh registration object. -/
theorem registerInstall_spec (st : CoreState) (wsB : Nat) (r : String)
    (ice : Option (List Nat)) {objId : Nat} {o : ServerObj}
    (hserv : aget r st.servers = some objId) (hheap : nget objId st.heap = some o)
    (hab : o.ws ≠ wsB) :
    registerInstall st wsB r ice =
      ({ st with servers := aset r st.nextObj (adel r st.servers),
                 wsMetadata := nset wsB { type := Role.server, id := r } (ndel o.ws st.wsMetadata),
                 heap := nset st.nextObj { ws := wsB, iceServers := ice } st.heap,
                 nextObj := st.nextObj + 1 },
       [Effect.close o.ws 4000 "Replaced by new connection",
        Effect.send wsB { type := "registered", remoteId := some r }]) := by
  simp [registerInstall, registerEvict, hserv, hheap, hab]

/-- A `register-server` from a connection that does not already hold this
exact registration takes the install path. -/
theorem handleServerRegister_not_refresh (st : CoreState) (wsB : Nat)
    (s r : String) (ice : Option (List Nat))
    (hup : upper s = r) (hne : r ≠ "")
    (hfresh : ∀ m, nget wsB st.wsMetadata = some m → ¬(m.type = Role.server ∧ m.id = r)) :
    handleServerRegister st wsB (regMsg s ice) = registerInstall st wsB r ice := by
  cases hmeta : nget wsB st.wsMetadata with
  | none => simp [handleServerRegister, regMsg, hup, hne, hmeta]
  | some m => simp [handleServerRegister, regMsg, hup, hne, hmeta, hfresh m hmeta]

/-! ## C2 -/

/-- C2 (amended): when the fallback deadline fires, the promoted client is
sent the `iceServers` read *at fire time* from the registration object that
was looked up at connect-request time.  Because a same-connection
re-registration refresh overwrites that very object in place, the fallback
delivers the refreshed list — not a snapshot captured when the
connect-request was handled.  (Only a replacement by a different connection,
which installs a fresh object, would leave the fallback reading the old
values.) -/
theorem fallback_sends_live_registration_ice
    (st : CoreState) (ws1 ws2 : Nat) (r : String) (objId : Nat) (o : ServerObj)
    (fid : String) (newIce : List Nat) (now t : Nat)
    (hup : upper r = r) (hne : r ≠ "")
    (hserv : aget r st.servers = some objId)
    (hheap : nget objId st.heap = some o)
    (hmeta : nget ws1 st.wsMetadata = some { type := Role.server, id := r })
    (hws : ws1 ≠ ws2) :
    (fireTimeout ((handleServerRegister
        ((handleConnectRequest st ws2 (conMsg r) now fid).1)
        ws1 (regMsg r (some newIce))).1) fid r objId t).2 =
      [Effect.send ws2 { type := "connected", remoteId := some r,
                         sessionId := some fid, iceServers := some newIce }] := by
  have h1 : (handleConnectRequest st ws2 (conMsg r) now fid).1 =
      { st with pendingClients := aset fid
                  { ws := ws2, remoteId := r, timer := st.nextTimer, obj := objId } st.pendingClients,
                timers := st.nextTimer :: st.timers,
                nextTimer := st.nextTimer + 1,
                wsMetadata := nset ws2 { type := Role.client, id := fid } st.wsMetadata } := by
    simp [handleConnectRequest, conMsg, hup, hne, hserv, hheap]
  rw [h1]
  have hmeta1 : nget ws1 (nset ws2 { type := Role.client, id := fid } st.wsMetadata)
      = some { type := Role.server, id := r } := by
    rw [nget_nset_ne hws]; exact hmeta
  simp [handleServerRegister, regMsg, hup, hne, hmeta1, hserv, hheap, fireTimeout,
        aget_aset_self, nget_nset_self]

/-- Server `A` (ws 1) refreshed its registration on the same connection with
a new ICE list `[9]` while ws 2's connect-request was still pending. -/
def stC2 : CoreState := (handleServerRegister stD1 1 (regMsg "A" (some [9]))).1

/-- C2 witness: in the concrete refresh scenario the fallback delivers the
refreshed list `[9]`. -/
theorem fallback_sends_live_registration_ice_witness :
    (fireTimeout ((handleServerRegister
        ((handleConnectRequest stA1 2 (conMsg "A") 0 sidA).1)
        1 (regMsg "A" (some [9]))).1) sidA "A" 0 0).2 =
      [Effect.send 2 { type := "connected", remoteId := some "A",
                       sessionId := some sidA, iceServers := some [9] }] :=
  fallback_sends_live_registration_ice stA1 1 2 "A" 0
    { ws := 1, iceServers := some [1, 2] } sidA [9] 0 0
    (by decide) (by decide) (by decide) (by decide) (by decide) (by decide)

/-- C2 counterexample: at connect-request time the registration cached
`[1, 2]`; before the deadline the same connection refreshed it to `[9]`; the
fallback then delivers `[9]`, not the `[1, 2]` that the claim says was
captured at connect-request time. -/
theorem fallback_cached_ice_cx :
    (nget 0 stD1.heap).bind ServerObj.iceServers = some [1, 2]
    ∧ (fireTimeout stC2 sidA "A" 0 0).2 =
        [Effect.send 2 { type := "connected", remoteId := some "A",
                         sessionId := some sidA, iceServers := some [9] }]
    ∧ ([9] : List Nat) ≠ [1, 2] := by decide

/-! ## C4 -/

/-- C4 (amended): replacing a server registration does *not* destroy the
active client sessions bound to its remote ID.  The replacement deletes the
evicted connection's identity entry, so the evicted connection's subsequent
disconnect handling is a complete no-op (no cascade); every active session
stays in the registry bound to the same remote ID, which now resolves to the
replacement connection. -/
theorem sessions_survive_replacement
    (st : CoreState) (sid r : String) (cw wsB : Nat) (objId : Nat) (o : ServerObj)
    (ice : Option (List Nat))
    (hup : upper r = r) (hne : r ≠ "")
    (hclient : aget sid st.clients = some { ws := cw, remoteId := r })
    (hserv : aget r st.servers = some objId)
    (hheap : nget objId st.heap = some o)
    (hab : o.ws ≠ wsB)
    (hfresh : ∀ m, nget wsB st.wsMetadata = some m → ¬(m.type = Role.server ∧ m.id = r)) :
    handleDisconnect ((handleServerRegister st wsB (regMsg r ice)).1) o.ws
      = ((handleServerRegister st wsB (regMsg r ice)).1, [])
    ∧ aget sid ((handleDisconnect ((handleServerRegister st wsB (regMsg r ice)).1) o.ws).1).clients
        = some { ws := cw, remoteId := r }
    ∧ lookupServer ((handleDisconnect ((handleServerRegister st wsB (regMsg r ice)).1) o.ws).1) r
        = some { ws := wsB, iceServers := ice } := by
  rw [handleServerRegister_not_refresh st wsB r r ice hup hne hfresh,
      registerInstall_spec st wsB r ice hserv hheap hab]
  have hmd : nget o.ws (nset wsB { type := Role.server, id := r }
      (ndel o.ws st.wsMetadata)) = none := by
    rw [nget_nset_ne hab, nget_ndel_self]
  refine ⟨?_, ?_, ?_⟩ <;>
    simp [handleDisconnect, hmd, lookupServer, hclient, aget_aset_self, nget_nset_self]

/-- Session `sidA` promoted to an active client (ws 2 ↔ server `A` on ws 1)
via `session-ready` with one fresh ICE server. -/
def stB1 : CoreState := (handleSessionReady stD1 1 (readyMsg sidA (some [3]))).1

/-- Server `A` re-registered from a different connection, ws 3 (replacement). -/
def stB2 : CoreState := (handleServerRegister stB1 3 (regMsg "A" none)).1

/-- The evicted connection ws 1 then disconnects. -/
def stB3 : CoreState := (handleDisconnect stB2 1).1

/-- C4 witness: in the concrete replacement scenario the evicted connection's
disconnect is a no-op and the active session survives, now routed to ws 3. -/
theorem sessions_survive_replacement_witness :
    handleDisconnect stB2 1 = (stB2, [])
    ∧ aget sidA ((handleDisconnect stB2 1).1).clients = some { ws := 2, remoteId := "A" }
    ∧ lookupServer ((handleDisconnect stB2 1).1) "A" = some { ws := 3, iceServers := none } := by
  have h := sessions_survive_replacement stB1 sidA "A" 2 3 0
    { ws := 1, iceServers := some [1, 2] } none
    (by decide) (by decide) (by decide) (by decide) (by decide) (by decide)
    (fun m hm => by
      rw [show nget 3 stB1.wsMetadata = none from by decide] at hm
      cases hm)
  exact h

/-- C4 counterexample: the session created under ws 1's registration of `A`
is still active and bound to `A` after ws 3 replaced that registration and
ws 1's disconnect was handled — the claim that no such session remains is
false. -/
theorem session_destroyed_on_replace_cx :
    aget sidA stB1.clients = some { ws := 2, remoteId := "A" }
    ∧ lookupServer stB2 "A" = some { ws := 3, iceServers := none }
    ∧ aget sidA stB3.clients = some { ws := 2, remoteId := "A" } := by decide

/-! ## C8 -/

/-- C8: registering a remote ID (case-normalized) held by a different
connection closes the old connection with code 4000
("Replaced by new connection"), removes its registry and identity entries,
and leaves the registry mapping the id to the new connection only; a
re-registration from the same connection is an idempotent refresh: it leaves
every map unchanged except for overwriting the registration's `iceServers`
when the message carries some, and replies `registered`. -/
theorem register_replace_and_refresh
    (stR stF : CoreState) (s r : String) (wsB : Nat)
    (objR objF : Nat) (oR oF : ServerObj) (ice : Option (List Nat))
    (hup : upper s = r) (hne : r ≠ "") :
    ((aget r stR.servers = some objR) → nget objR stR.heap = some oR → oR.ws ≠ wsB →
     (∀ m, nget wsB stR.wsMetadata = some m → ¬(m.type = Role.server ∧ m.id = r)) →
       (handleServerRegister stR wsB (regMsg s ice)).2
         = [Effect.close oR.ws 4000 "Replaced by new connection",
            Effect.send wsB { type := "registered", remoteId := some r }]
       ∧ nget oR.ws ((handleServerRegister stR wsB (regMsg s ice)).1).wsMetadata = none
       ∧ lookupServer ((handleServerRegister stR wsB (regMsg s ice)).1) r
           = some { ws := wsB, iceServers := ice }
       ∧ nget wsB ((handleServerRegister stR wsB (regMsg s ice)).1).wsMetadata
           = some { type := Role.server, id := r })
    ∧ (nget wsB stF.wsMetadata = some { type := Role.server, id := r } →
       aget r stF.servers = some objF → nget objF stF.heap = some oF →
         (handleServerRegister stF wsB (regMsg s ice)).2
           = [Effect.send wsB { type := "registered", remoteId := some r }]
         ∧ ((handleServerRegister stF wsB (regMsg s ice)).1).servers = stF.servers
         ∧ ((handleServerRegister stF wsB (regMsg s ice)).1).clients = stF.clients
         ∧ ((handleServerRegister stF wsB (regMsg s ice)).1).pendingClients = stF.pendingClients
         ∧ ((handleServerRegister stF wsB (regMsg s ice)).1).wsMetadata = stF.wsMetadata
         ∧ lookupServer ((handleServerRegister stF wsB (regMsg s ice)).1) r
             = some { ws := oF.ws,
                      iceServers := match ice with
                                    | some i => some i
                                    | none => oF.iceServers }) := by
  constructor
  · intro hserv hheap hab hfresh
    rw [handleServerRegister_not_refresh stR wsB s r ice hup hne hfresh,
        registerInstall_spec stR wsB r ice hserv hheap hab]
    refine ⟨rfl, ?_, ?_, ?_⟩
    · rw [show ((
        { stR with servers := aset r stR.nextObj (adel r stR.servers),
                   wsMetadata := nset wsB { type := Role.server, id := r } (ndel oR.ws stR.wsMetadata),
                   heap := nset stR.nextObj { ws := wsB, iceServers := ice } stR.heap,
                   nextObj := stR.nextObj + 1 } : CoreState),
        [Effect.close oR.ws 4000 "Replaced by new connection",
         Effect.send wsB { type := "registered", remoteId := some r }]).1.wsMetadata
        = nset wsB { type := Role.server, id := r } (ndel oR.ws stR.wsMetadata) from rfl,
        nget_nset_ne hab, nget_ndel_self]
    · simp [lookupServer, aget_aset_self, nget_nset_self]
    · simp [nget_nset_self]
  · intro hmeta hserv hheap
    cases ice with
    | none =>
      refine ⟨?_, ?_, ?_, ?_, ?_, ?_⟩ <;>
        simp [handleServerRegister, regMsg, hup, hne, hmeta, hserv, hheap, lookupServer]
    | some i =>
      refine ⟨?_, ?_, ?_, ?_, ?_, ?_⟩ <;>
        simp [handleServerRegister, regMsg, hup, hne, hmeta, hserv, hheap, lookupServer,
              nget_nset_self]

/-- C8 witness: ws 3 registering `"a"` (normalizing to `"A"`, held by ws 1 in
`stB1`) evicts ws 1 with close code 4000 and takes over the mapping; a repeat
registration of `"A"` by ws 1 itself in `stA1` with a fresh list `[7]` is an
idempotent refresh that only updates the stored `iceServers`. -/
theorem register_replace_and_refresh_witness :
    ((handleServerRegister stB1 3 (regMsg "a" none)).2
       = [Effect.close 1 4000 "Replaced by new connection",
          Effect.send 3 { type := "registered", remoteId := some "A" }]
     ∧ lookupServer ((handleServerRegister stB1 3 (regMsg "a" none)).1) "A"
         = some { ws := 3, iceServers := none })
    ∧ ((handleServerRegister stA1 1 (regMsg "a" (some [7]))).2
         = [Effect.send 1 { type := "registered", remoteId := some "A" }]
       ∧ lookupServer ((handleServerRegister stA1 1 (regMsg "a" (some [7]))).1) "A"
           = some { ws := 1, iceServers := some [7] }) := by
  have hR := register_replace_and_refresh stB1 stA1 "a" "A" 3 0 0
    { ws := 1, iceServers := some [1, 2] } { ws := 1, iceServers := some [1, 2] } none
    (by decide) (by decide)
  have hF := register_replace_and_refresh stB1 stA1 "a" "A" 1 0 0
    { ws := 1, iceServers := some [1, 2] } { ws := 1, iceServers := some [1, 2] } (some [7])
    (by decide) (by decide)
  have h1 := hR.1 (by decide) (by decide) (by decide)
    (fun m hm => by
      rw [show nget 3 stB1.wsMetadata = none from by decide] at hm
      cases hm)
  have h2 := hF.2 (by decide) (by decide) (by decide)
  exact ⟨⟨h1.1, h1.2.2.1⟩, ⟨h2.1, h2.2.2.2.2.2⟩⟩

/-! ## C9 -/

/-- The single-counter-space invariant: no session id is simultaneously a key
of the pending map and of the active-client map. -/
def SessionsDisjoint (st : CoreState) : Prop :=
  ∀ p ∈ st.pendingClients, aget p.1 st.clients = none

instance (st : CoreState) : Decidable (SessionsDisjoint st) := by
  unfold SessionsDisjoint
  exact List.decidableBAll _ _

/-- Moving one session id from pending to active preserves disjointness. -/
theorem disjoint_promote {pend : List (String × PendingClient)}
    {cl : List (String × ClientData)} (sid : String) (cd : ClientData)
    (h : ∀ p ∈ pend, aget p.1 cl = none) :
    ∀ p ∈ adel sid pend, aget p.1 (aset sid cd cl) = none := by
  intro p hp
  obtain ⟨hmem, hne⟩ := mem_adel hp
  rw [aget_aset_ne hne]
  exact h p hmem

/-- Adding a pending entry under an id with no active session preserves
disjointness. -/
theorem disjoint_add_pending {pend : List (String × PendingClient)}
    {cl : List (String × ClientData)} (fid : String) (pc : PendingClient)
    (h : ∀ p ∈ pend, aget p.1 cl = none) (hfresh : aget fid cl = none) :
    ∀ p ∈ aset fid pc pend, aget p.1 cl = none := by
  intro p hp
  rcases mem_aset hp with h1 | ⟨hmem, _⟩
  · subst h1; exact hfresh
  · exact h p hmem

/-- Filtering both maps preserves disjointness. -/
theorem disjoint_filter {pend : List (String × PendingClient)}
    {cl : List (String × ClientData)} (f : String × PendingClient → Bool)
    (g : String × ClientData → Bool)
    (h : ∀ p ∈ pend, aget p.1 cl = none) :
    ∀ p ∈ pend.filter f, aget p.1 (cl.filter g) = none := by
  intro p hp
  exact aget_filter_none g (h p (List.mem_of_mem_filter hp))

/-- Deleting in either map preserves disjointness. -/
theorem disjoint_adel {pend : List (String × PendingClient)}
    {cl : List (String × ClientData)} (k k' : String)
    (h : ∀ p ∈ pend, aget p.1 cl = none) :
    ∀ p ∈ adel k pend, aget p.1 (adel k' cl) = none := by
  intro p hp
  exact aget_adel_none k' (h p (mem_adel hp).1)

theorem disjoint_handleServerRegister (st : CoreState) (ws : Nat) (msg : SigMsg)
    (h : SessionsDisjoint st) :
    SessionsDisjoint (handleServerRegister st ws msg).1 := by
  unfold handleServerRegister registerInstall registerEvict
  repeat' first
    | split
    | (dsimp only; split)
  all_goals exact h

theorem disjoint_handleConnectRequest (st : CoreState) (ws : Nat) (msg : SigMsg)
    (now : Nat) (fid : String) (h : SessionsDisjoint st)
    (hfresh : aget fid st.clients = none) :
    SessionsDisjoint (handleConnectRequest st ws msg now fid).1 := by
  unfold handleConnectRequest connectServerNotFound
  repeat' first
    | split
    | (dsimp only; split)
  all_goals first
    | exact h
    | exact disjoint_add_pending fid _ h hfresh

theorem disjoint_handleSessionReady (st : CoreState) (ws : Nat) (msg : SigMsg)
    (h : SessionsDisjoint st) :
    SessionsDisjoint (handleSessionReady st ws msg).1 := by
  unfold handleSessionReady
  repeat' first
    | split
    | (dsimp only; split)
  all_goals first
    | exact h
    | exact disjoint_promote _ _ h

theorem disjoint_fireTimeout (st : CoreState) (sid r : String) (objId t : Nat)
    (h : SessionsDisjoint st) :
    SessionsDisjoint (fireTimeout st sid r objId t).1 := by
  unfold fireTimeout
  repeat' first
    | split
    | (dsimp only; split)
  all_goals first
    | exact h
    | exact disjoint_promote _ _ h

theorem disjoint_forward (st : CoreState) (ws : Nat) (msg : SigMsg)
    (h : SessionsDisjoint st) :
    SessionsDisjoint (forwardSignalingMessage st ws msg).1 := by
  unfold forwardSignalingMessage
  repeat' first
    | split
    | (dsimp only; split)
  all_goals exact h

theorem disjoint_handleDisconnect (st : CoreState) (ws : Nat)
    (h : SessionsDisjoint st) :
    SessionsDisjoint (handleDisconnect st ws).1 := by
  unfold handleDisconnect
  repeat' first
    | split
    | (dsimp only; split)
  all_goals first
    | exact h
    | exact disjoint_filter _ _ h
    | exact disjoint_adel _ _ h
    | (intro p hp; exact aget_adel_none _ (h p hp))
    | (intro p hp; exact aget_adel_none _ (h p (mem_adel hp).1))
    | (intro p hp; exact h p (mem_adel hp).1)

/-- C9 (amended): disjointness of the pending and active session-id spaces is
preserved by every operation of the core — *provided* each freshly generated
session id has no active session (the code performs no such check; a random
collision, possible since `generateSessionId` draws 16 characters with no
uniqueness test, violates the invariant — see the counterexample). -/
theorem sessionId_disjoint_preserved (st : CoreState) (h : SessionsDisjoint st) :
    (∀ ws msg, SessionsDisjoint (handleServerRegister st ws msg).1)
    ∧ (∀ ws msg now fid, aget fid st.clients = none →
         SessionsDisjoint (handleConnectRequest st ws msg now fid).1)
    ∧ (∀ ws msg, SessionsDisjoint (handleSessionReady st ws msg).1)
    ∧ (∀ sid r objId t, SessionsDisjoint (fireTimeout st sid r objId t).1)
    ∧ (∀ ws msg, SessionsDisjoint (forwardSignalingMessage st ws msg).1)
    ∧ (∀ ws, SessionsDisjoint (handleDisconnect st ws).1) :=
  ⟨fun ws msg => disjoint_handleServerRegister st ws msg h,
   fun ws msg now fid hf => disjoint_handleConnectRequest st ws msg now fid h hf,
   fun ws msg => disjoint_handleSessionReady st ws msg h,
   fun sid r objId t => disjoint_fireTimeout st sid r objId t h,
   fun ws msg => disjoint_forward st ws msg h,
   fun ws => disjoint_handleDisconnect st ws h⟩

/-- C9 witness: from the disjoint state `stA2`, the connect-request creating
`stA3` under the fresh id `sidA` preserves disjointness. -/
theorem sessionId_disjoint_preserved_witness :
    SessionsDisjoint stA3 :=
  (sessionId_disjoint_preserved stA2 (by decide)).2.1 2 (conMsg "A") 0 sidA (by decide)

/-- A connect-request handled while the random generator emitted `sidA` a
second time — an id that is already an active session in `stB1`. -/
def stE2 : CoreState := (handleConnectRequest stB1 4 (conMsg "A") 0 sidA).1

/-- C9 counterexample: `generateSessionId` performs no uniqueness check, so a
(however improbable) repeat of an id that is still active makes the id a key
of *both* maps at once: in `stE2` the valid generator output `sidA` is
simultaneously pending and active, contradicting the unconditional
uniqueness claim. -/
theorem sessionId_unique_cx :
    validSessionId sidA
    ∧ (aget sidA stE2.pendingClients).isSome = true
    ∧ (aget sidA stE2.clients).isSome = true := by decide

/-! ## C10 -/

/-- C10: an `offer`/`answer`/`ice-candidate` from a connection with a client
identity whose session is still pending (hence not in the active map) draws
the `Session not found` error, leaves the state unchanged, and forwards
nothing: client-to-server forwarding requires the session to have been
promoted to active. -/
theorem client_forward_requires_active
    (st : CoreState) (ws : Nat) (msg : SigMsg) (sid : String) (p : PendingClient)
    (hty : msg.type = "offer" ∨ msg.type = "answer" ∨ msg.type = "ice-candidate")
    (hm : nget ws st.wsMetadata = some { type := Role.client, id := sid })
    (hp : aget sid st.pendingClients = some p)
    (hna : aget sid st.clients = none) :
    forwardSignalingMessage st ws msg = (st, [sendErr ws "Session not found"]) := by
  simp [forwardSignalingMessage, hm, hna]

/-- C10 witness: ws 2's `offer` sent while `sidA` is still pending in `stD1`
is answered with `Session not found` and nothing is forwarded. -/
theorem client_forward_requires_active_witness :
    forwardSignalingMessage stD1 2 { type := "offer", data := some 7 }
      = (stD1, [sendErr 2 "Session not found"]) :=
  client_forward_requires_active stD1 2 { type := "offer", data := some 7 } sidA
    { ws := 2, remoteId := "A", timer := 0, obj := 0 }
    (Or.inl rfl) (by decide) (by decide) (by decide)

/-! ## C3 -/

/-- C3 (amended): when the failed-lookup counter reaches its threshold within
the window, `recordFailedLookup` adds 2 to the request-rate record's
violations, sets it blocked, resets the failed-lookup counter to zero — but
the block duration is `min(base · 2^violations, 3600000)` with the exponent
equal to the *post-increment* violation count itself, one doubling step more
than the `min(base · 2^(violations−1), 3600000)` formula `checkRequest` uses
for request-rate violations. -/
theorem failed_lookup_block_formula
    (rl : RateLimiter) (ip : String) (now : Nat) (fl : FLRecord)
    (hfl : aget ip rl.failedLookups = some fl)
    (hwin : now - fl.windowStart ≤ rl.failedLookupWindowMs)
    (hth : fl.count + 1 ≥ rl.maxFailedLookups) :
    (∀ q, aget ip rl.requests = some q →
       recordFailedLookup rl ip now =
         ({ rl with
              requests := aset ip
                { q with violations := q.violations + 2, blocked := true,
                         blockExpires := now + min (rl.baseBlockDurationMs * 2 ^ (q.violations + 2)) 3600000 }
                rl.requests,
              failedLookups := aset ip { count := 0, windowStart := now } rl.failedLookups },
          true))
    ∧ (aget ip rl.requests = none →
       recordFailedLookup rl ip now =
         ({ rl with
              requests := aset ip
                { count := 0, windowStart := now, blocked := true,
                  blockExpires := now + min (rl.baseBlockDurationMs * 2 ^ 2) 3600000,
                  violations := 2 }
                rl.requests,
              failedLookups := aset ip { count := 0, windowStart := now } rl.failedLookups },
          true)) := by
  have hw : ¬ (now - fl.windowStart > rl.failedLookupWindowMs) := not_lt.mpr hwin
  constructor
  · intro q hq
    simp [recordFailedLookup, hfl, hw, hth, hq]
  · intro hq
    simp [recordFailedLookup, hfl, hw, hth, hq]

/-- A rate limiter (default configuration) whose failed-lookup counter for
`"ip"` stands one short of the threshold. -/
def rlC3 : RateLimiter := { failedLookups := [("ip", { count := 9, windowStart := 0 })] }

/-- C3 witness: the tenth failed lookup from `"ip"` blocks its (previously
absent) request record with `violations = 2` and duration
`min(60000 · 2^2, 3600000)`. -/
theorem failed_lookup_block_formula_witness :
    recordFailedLookup rlC3 "ip" 0 =
      ({ rlC3 with
           requests := aset "ip"
             { count := 0, windowStart := 0, blocked := true,
               blockExpires := 0 + min (rlC3.baseBlockDurationMs * 2 ^ 2) 3600000,
               violations := 2 }
             rlC3.requests,
           failedLookups := aset "ip" { count := 0, windowStart := 0 } rlC3.failedLookups },
       true) :=
  (failed_lookup_block_formula rlC3 "ip" 0 { count := 9, windowStart := 0 }
    (by decide) (by decide) (by decide)).2 (by decide)

/-- C3 counterexample: in the same concrete scenario the code blocks for
240000 ms (`min(60000 · 2^2, 3600000)`), not the 120000 ms that the claim's
formula `min(60000 · 2^(2−1), 3600000)` (with the post-increment violation
count 2) prescribes. -/
theorem failed_lookup_formula_cx :
    (recordFailedLookup rlC3 "ip" 0).2 = true
    ∧ (aget "ip" (recordFailedLookup rlC3 "ip" 0).1.requests).map RLRecord.violations = some 2
    ∧ (aget "ip" (recordFailedLookup rlC3 "ip" 0).1.requests).map RLRecord.blockExpires = some 240000
    ∧ (aget "ip" (recordFailedLookup rlC3 "ip" 0).1.failedLookups).map FLRecord.count = some 0
    ∧ 240000 ≠ 0 + min (60000 * 2 ^ (2 - 1)) 3600000 := by decide

/-! ## C7 -/

/-- A sequence of `checkRequest` calls for one address at the given times;
the boolean records whether every call in the sequence was allowed. -/
def checkSeq (rl : RateLimiter) (ip : String) : List Nat → RateLimiter × Bool
  | [] => (rl, true)
  | u :: ts =>
    let one := checkRequest rl ip u
    let rest := checkSeq one.1 ip ts
    (rest.1, one.2.allowed && rest.2)

/-- A first request from an untracked address is allowed and creates a fresh
window record with count 1. -/
theorem checkRequest_first (rl : RateLimiter) (ip : String) (now : Nat)
    (h : aget ip rl.requests = none) (hmax : 1 ≤ rl.maxRequests) :
    checkRequest rl ip now =
      ({ rl with
           requests := aset ip
             { count := 1, windowStart := now, blocked := false, blockExpires := 0, violations := 0 }
             rl.requests },
       { allowed := true }) := by
  have h1 : ¬ (0 + 1 > rl.maxRequests) := by omega
  simp [checkRequest, checkBody, h, h1]

/-- An in-window request under the threshold is allowed and only increments
the counter. -/
theorem checkRequest_step (rl : RateLimiter) (ip : String) (now : Nat) (r : RLRecord)
    (hr : aget ip rl.requests = some r) (hb : r.blocked = false)
    (hw : now - r.windowStart ≤ rl.windowMs) (hc : r.count + 1 ≤ rl.maxRequests) :
    checkRequest rl ip now =
      ({ rl with requests := aset ip { r with count := r.count + 1 } rl.requests },
       { allowed := true }) := by
  have hw' : ¬ (now - r.windowStart > rl.windowMs) := not_lt.mpr hw
  have hc' : ¬ (r.count + 1 > rl.maxRequests) := not_lt.mpr hc
  simp [checkRequest, checkBody, hr, hb, hw', hc']

/-- An in-window request at or above the threshold is denied: violations
increment and the block duration follows
`min(base · 2^(violations−1), 3600000)` for the new violation count. -/
theorem checkRequest_denied (rl : RateLimiter) (ip : String) (now : Nat) (r : RLRecord)
    (hr : aget ip rl.requests = some r) (hb : r.blocked = false)
    (hw : now - r.windowStart ≤ rl.windowMs) (hc : rl.maxRequests ≤ r.count) :
    checkRequest rl ip now =
      ({ rl with
           requests := aset ip
             { count := r.count + 1, windowStart := r.windowStart, blocked := true,
               blockExpires := now + min (rl.baseBlockDurationMs * 2 ^ r.violations) 3600000,
               violations := r.violations + 1 }
             rl.requests },
       { allowed := false,
         retryAfter := some (ceilSeconds (min (rl.baseBlockDurationMs * 2 ^ r.violations) 3600000)) }) := by
  have hw' : ¬ (now - r.windowStart > rl.windowMs) := not_lt.mpr hw
  have hc' : r.count + 1 > rl.maxRequests := by omega
  simp [checkRequest, checkBody, hr, hb, hw', hc']

/-- Running a sequence of in-window requests that stays at or below the
threshold keeps every request allowed and accumulates the counter, leaving
the record's other fields and the configuration untouched. -/
theorem checkSeq_allowed (ip : String) (ts : List Nat) :
    ∀ (rl : RateLimiter) (r : RLRecord),
      aget ip rl.requests = some r → r.blocked = false →
      (∀ u ∈ ts, u - r.windowStart ≤ rl.windowMs) →
      r.count + ts.length ≤ rl.maxRequests →
      (checkSeq rl ip ts).2 = true
      ∧ aget ip ((checkSeq rl ip ts).1).requests = some { r with count := r.count + ts.length }
      ∧ ((checkSeq rl ip ts).1).windowMs = rl.windowMs
      ∧ ((checkSeq rl ip ts).1).maxRequests = rl.maxRequests
      ∧ ((checkSeq rl ip ts).1).baseBlockDurationMs = rl.baseBlockDurationMs := by
  induction ts with
  | nil =>
    intro rl r hr hb hwin hcount
    refine ⟨rfl, ?_, rfl, rfl, rfl⟩
    simpa using hr
  | cons u ts ih =>
    intro rl r hr hb hwin hcount
    have hlen : (u :: ts).length = ts.length + 1 := List.length_cons u ts
    have hstep := checkRequest_step rl ip u r hr hb
      (hwin u (List.mem_cons_self u ts)) (by rw [hlen] at hcount; omega)
    have hrest := ih { rl with requests := aset ip { r with count := r.count + 1 } rl.requests }
      { r with count := r.count + 1 }
      (aget_aset_self ip _ rl.requests) hb
      (fun u' hu' => hwin u' (List.mem_cons_of_mem u hu'))
      (by rw [hlen] at hcount; simpa using by omega)
    obtain ⟨hall, hget, hwms, hmax, hbase⟩ := hrest
    have harith : r.count + 1 + ts.length = r.count + (u :: ts).length := by
      rw [hlen]; omega
    refine ⟨?_, ?_, ?_, ?_, ?_⟩
    · simp [checkSeq, hstep, hall]
    · rw [show (checkSeq rl ip (u :: ts)).1
            = (checkSeq { rl with requests := aset ip { r with count := r.count + 1 } rl.requests } ip ts).1
          from by simp [checkSeq, hstep], hget]
      simp only [Option.some.injEq]
      rw [← harith]
    · rw [show (checkSeq rl ip (u :: ts)).1
            = (checkSeq { rl with requests := aset ip { r with count := r.count + 1 } rl.requests } ip ts).1
          from by simp [checkSeq, hstep]]
      exact hwms
    · rw [show (checkSeq rl ip (u :: ts)).1
            = (checkSeq { rl with requests := aset ip { r with count := r.count + 1 } rl.requests } ip ts).1
          from by simp [checkSeq, hstep]]
      exact hmax
    · rw [show (checkSeq rl ip (u :: ts)).1
            = (checkSeq { rl with requests := aset ip { r with count := r.count + 1 } rl.requests } ip ts).1
          from by simp [checkSeq, hstep]]
      exact hbase

/-- C7: for an address with `maxRequests = N`: (a) from an untracked start,
`N` in-window requests are all allowed and the `(N+1)`th is denied, blocked
for exactly `baseBlockDurationMs` (first violation, `violations = 1`);
(b) an in-window request at or above the threshold is denied with duration
`min(base · 2^(v−1), 3600000)` for the incremented violation count `v` —
doubling per consecutive violation up to the one-hour cap; (c) while blocked,
a check returns the remaining seconds until `blockExpires` and changes
nothing; (d) once the block expires, the check clears the block, restarts the
window fresh and is allowed, with the violation count persisting. -/
theorem rate_limit_window_behavior (ip : String)
    (rlA : RateLimiter) (t0 tN : Nat) (ts : List Nat)
    (rlB : RateLimiter) (nB : Nat) (rB : RLRecord)
    (rlC : RateLimiter) (nC : Nat) (rC : RLRecord)
    (rlD : RateLimiter) (nD : Nat) (rD : RLRecord) :
    (aget ip rlA.requests = none → (∀ u ∈ ts, u - t0 ≤ rlA.windowMs) →
     tN - t0 ≤ rlA.windowMs → ts.length + 1 = rlA.maxRequests →
     rlA.baseBlockDurationMs ≤ 3600000 →
       (checkRequest rlA ip t0).2 = { allowed := true }
       ∧ (checkSeq (checkRequest rlA ip t0).1 ip ts).2 = true
       ∧ (checkRequest ((checkSeq (checkRequest rlA ip t0).1 ip ts).1) ip tN).2
           = { allowed := false, retryAfter := some (ceilSeconds rlA.baseBlockDurationMs) }
       ∧ (aget ip ((checkRequest ((checkSeq (checkRequest rlA ip t0).1 ip ts).1) ip tN).1).requests).map
             RLRecord.blockExpires = some (tN + rlA.baseBlockDurationMs)
       ∧ (aget ip ((checkRequest ((checkSeq (checkRequest rlA ip t0).1 ip ts).1) ip tN).1).requests).map
             RLRecord.violations = some 1)
    ∧ (aget ip rlB.requests = some rB → rB.blocked = false →
       nB - rB.windowStart ≤ rlB.windowMs → rlB.maxRequests ≤ rB.count →
         checkRequest rlB ip nB =
           ({ rlB with
                requests := aset ip
                  { count := rB.count + 1, windowStart := rB.windowStart, blocked := true,
                    blockExpires := nB + min (rlB.baseBlockDurationMs * 2 ^ ((rB.violations + 1) - 1)) 3600000,
                    violations := rB.violations + 1 }
                  rlB.requests },
            { allowed := false,
              retryAfter := some (ceilSeconds (min (rlB.baseBlockDurationMs * 2 ^ ((rB.violations + 1) - 1)) 3600000)) }))
    ∧ (aget ip rlC.requests = some rC → rC.blocked = true → nC < rC.blockExpires →
         checkRequest rlC ip nC =
           (rlC, { allowed := false, retryAfter := some (ceilSeconds (rC.blockExpires - nC)) }))
    ∧ (aget ip rlD.requests = some rD → rD.blocked = true → ¬ nD < rD.blockExpires →
       1 ≤ rlD.maxRequests →
         checkRequest rlD ip nD =
           ({ rlD with
                requests := aset ip
                  { count := 1, windowStart := nD, blocked := false,
                    blockExpires := rD.blockExpires, violations := rD.violations }
                  rlD.requests },
            { allowed := true })) := by
  refine ⟨?_, ?_, ?_, ?_⟩
  · intro hnone hts htN hlen hbase
    have hmax1 : 1 ≤ rlA.maxRequests := by omega
    have hfirst := checkRequest_first rlA ip t0 hnone hmax1
    have hseq := checkSeq_allowed ip ts
      { rlA with
          requests := aset ip
            { count := 1, windowStart := t0, blocked := false, blockExpires := 0, violations := 0 }
            rlA.requests }
      { count := 1, windowStart := t0, blocked := false, blockExpires := 0, violations := 0 }
      (aget_aset_self ip _ rlA.requests) rfl (fun u hu => hts u hu)
      (by show 1 + ts.length ≤ rlA.maxRequests; omega)
    obtain ⟨hall, hget, hwms, hmaxeq, hbaseeq⟩ := hseq
    have hden := checkRequest_denied ((checkSeq _ ip ts).1) ip tN
      { count := 1 + ts.length, windowStart := t0, blocked := false, blockExpires := 0, violations := 0 }
      (by simpa using hget) rfl
      (by rw [hwms]; exact htN)
      (by rw [hmaxeq]; show rlA.maxRequests ≤ 1 + ts.length; omega)
    rw [hfirst]
    have hminbase : min rlA.baseBlockDurationMs 3600000 = rlA.baseBlockDurationMs :=
      min_eq_left hbase
    refine ⟨rfl, hall, ?_, ?_, ?_⟩
    · rw [hden]
      simp [hbaseeq, hminbase]
    · rw [hden]
      simp [aget_aset_self, hbaseeq, hminbase]
    · rw [hden]
      simp [aget_aset_self]
  · intro hr hb hw hc
    simpa using checkRequest_denied rlB ip nB rB hr hb hw hc
  · intro hr hb hlt
    simp [checkRequest, hr, hb, hlt]
  · intro hr hb hge hmax
    have h1 : ¬ (0 + 1 > rlD.maxRequests) := by omega
    simp [checkRequest, checkBody, hr, hb, hge, h1]

/-- The default-configuration limiter seeing requests from a single address. -/
def rlB7 : RateLimiter := { requests := [("ip", { count := 100, windowStart := 0, blocked := false, blockExpires := 0, violations := 0 })] }

/-- A blocked record used to exercise the while-blocked and expiry branches. -/
def rlC7 : RateLimiter := { requests := [("ip", { count := 0, windowStart := 0, blocked := true, blockExpires := 50000, violations := 3 })] }

set_option maxRecDepth 8000 in
/-- C7 witness: with the default configuration (`maxRequests = 100`), the
first 100 requests at time 0 are allowed and the 101st is denied for 60 s
(`violations = 1`); a threshold hit on a full window is denied with the
backoff formula; a check at 20 s into a 50 s block reports 30 s remaining;
a check at exactly 50 s clears the block, is allowed, and keeps
`violations = 3`. -/
theorem rate_limit_window_behavior_witness :
    (checkRequest ({} : RateLimiter) "ip" 0).2 = { allowed := true }
    ∧ (checkSeq (checkRequest ({} : RateLimiter) "ip" 0).1 "ip" (List.replicate 99 0)).2 = true
    ∧ (checkRequest ((checkSeq (checkRequest ({} : RateLimiter) "ip" 0).1 "ip" (List.replicate 99 0)).1) "ip" 0).2
        = { allowed := false, retryAfter := some 60 }
    ∧ (aget "ip" ((checkRequest ((checkSeq (checkRequest ({} : RateLimiter) "ip" 0).1 "ip" (List.replicate 99 0)).1) "ip" 0).1).requests).map
          RLRecord.blockExpires = some 60000
    ∧ (checkRequest rlB7 "ip" 5).2 = { allowed := false, retryAfter := some 60 }
    ∧ checkRequest rlC7 "ip" 20000 = (rlC7, { allowed := false, retryAfter := some 30 })
    ∧ (checkRequest rlC7 "ip" 50000).2 = { allowed := true }
    ∧ (aget "ip" ((checkRequest rlC7 "ip" 50000).1).requests).map RLRecord.violations = some 3 := by
  have h := rate_limit_window_behavior "ip" ({} : RateLimiter) 0 0 (List.replicate 99 0)
    rlB7 5 { count := 100, windowStart := 0, blocked := false, blockExpires := 0, violations := 0 }
    rlC7 20000 { count := 0, windowStart := 0, blocked := true, blockExpires := 50000, violations := 3 }
    rlC7 50000 { count := 0, windowStart := 0, blocked := true, blockExpires := 50000, violations := 3 }
  have hA := h.1 (by decide) (by decide) (by decide) (by decide) (by decide)
  have hB := h.2.1 (by decide) (by decide) (by decide) (by decide)
  have hC := h.2.2.1 (by decide) (by decide) (by decide)
  have hD := h.2.2.2 (by decide) (by decide) (by decide) (by decide)
  refine ⟨hA.1, hA.2.1, ?_, ?_, ?_, ?_, ?_, ?_⟩
  · simpa [ceilSeconds] using hA.2.2.1
  · simpa using hA.2.2.2.1
  · rw [hB]; simp [ceilSeconds, rlB7]
  · simpa [ceilSeconds] using hC
  · rw [hD]
  · rw [hD]; simp [aget_aset_self]

end Signaling
